import Mathlib

/-
Verification of the findpapers PubMed searcher and PDF downloader.

The Python source parses PubMed XML with xmltodict, which yields nested
structures built from dictionaries, lists, strings and None.  `XVal` is a
shallow embedding of those parsed values; the `py...` helpers reproduce the
Python operations used by the source (`dict.get`, `int(...)`, iteration,
`str.isdigit`, ...) including the exceptions they raise, via `Except PyErr`.
-/

mutual

inductive XVal where
  | null : XVal
  | str : String → XVal
  | obj : XFields → XVal
  | list : XItems → XVal

inductive XFields where
  | nil : XFields
  | cons : String → XVal → XFields → XFields

inductive XItems where
  | nil : XItems
  | cons : XVal → XItems → XItems

end

def XFields.ofList : List (String × XVal) → XFields
  | [] => .nil
  | (k, v) :: rest => .cons k v (XFields.ofList rest)

def XItems.ofList : List XVal → XItems
  | [] => .nil
  | v :: rest => .cons v (XItems.ofList rest)

def XItems.toList : XItems → List XVal
  | .nil => []
  | .cons v rest => v :: XItems.toList rest

def XFields.lookup : XFields → String → Option XVal
  | .nil, _ => none
  | .cons k v rest, key => if k = key then some v else XFields.lookup rest key

def XFields.keys : XFields → List String
  | .nil => []
  | .cons k _ rest => k :: XFields.keys rest

/-- Builds an `XVal` dictionary from a key/value list (xmltodict dict). -/
def xobj (l : List (String × XVal)) : XVal := .obj (XFields.ofList l)

/-- Builds an `XVal` list from a value list (xmltodict repeated element). -/
def xlist (l : List XVal) : XVal := .list (XItems.ofList l)

/-- Shorthand for a string leaf. -/
def xstr (s : String) : XVal := .str s

/-- The Python exceptions that the modelled code can raise. -/
inductive PyErr where
  | valueError : String → PyErr
  | attrError : PyErr
  | typeError : PyErr
deriving DecidableEq

/-- Python `v.get(key)` / `v.get(key, None)`: only dictionaries have `get`;
calling it on None, a string or a list raises AttributeError.  A missing key
yields None. -/
def pyGet (v : XVal) (k : String) : Except PyErr XVal :=
  match v with
  | .obj fs => .ok ((fs.lookup k).getD .null)
  | _ => .error .attrError

/-- Python `v.get(key, dflt)` with a non-None default. -/
def pyGetOr (v : XVal) (k : String) (dflt : XVal) : Except PyErr XVal :=
  match v with
  | .obj fs => .ok ((fs.lookup k).getD dflt)
  | _ => .error .attrError

/-- Checks whether the character list `n` occurs inside `hay` (Python `in`
on strings). -/
def tailsContain (n : List Char) : List Char → Bool
  | [] => n.isEmpty
  | c :: rest => n.isPrefixOf (c :: rest) || tailsContain n rest

/-- Python `needle in hay` for strings (substring containment). -/
def strContainsSub (needle hay : String) : Bool :=
  tailsContain needle.toList hay.toList

/-- Splits a character list on every non-overlapping occurrence of `sep`,
keeping empty pieces (Python `str.split(sep)` with a non-empty separator).
The fuel argument makes the recursion structural; one unit per consumed
character suffices. -/
def splitCharsFuel (sep : List Char) : Nat → List Char → List Char → List (List Char)
  | 0, s, cur => [cur.reverse ++ s]
  | fuel + 1, s, cur =>
    match s with
    | [] => [cur.reverse]
    | c :: rest =>
      if sep.isPrefixOf (c :: rest) ∧ 0 < sep.length then
        cur.reverse :: splitCharsFuel sep fuel ((c :: rest).drop sep.length) []
      else
        splitCharsFuel sep fuel rest (c :: cur)

/-- Python `s.split(sep)` for a non-empty separator. -/
def pySplit (s sep : String) : List String :=
  (splitCharsFuel sep.toList (s.toList.length + 1) s.toList []).map String.mk

/-- Joins strings with a separator. -/
def strIntercalate (sep : String) : List String → String
  | [] => ""
  | [s] => s
  | s :: rest => s ++ sep ++ strIntercalate sep rest

/-- Python `s.replace(pat, rep)` for a non-empty pattern: every
non-overlapping occurrence, left to right. -/
def pyReplace (s pat rep : String) : String :=
  if pat.toList.isEmpty then s
  else strIntercalate rep (pySplit s pat)

/-- Python `s.strip()`. -/
def pyTrim (s : String) : String :=
  String.mk (((s.toList.dropWhile Char.isWhitespace).reverse.dropWhile
    Char.isWhitespace).reverse)

/-- Python `s.startswith(p)`. -/
def pyStartsWith (s p : String) : Bool :=
  p.toList.isPrefixOf s.toList

/-- Python `s.endswith(p)`. -/
def pyEndsWith (s p : String) : Bool :=
  p.toList.reverse.isPrefixOf s.toList.reverse

/-- Python `s[n:]`. -/
def pyStrDrop (s : String) (n : Nat) : String :=
  String.mk (s.toList.drop n)

/-- Python `s[:-n]` for `n ≤ len(s)`. -/
def pyStrDropRight (s : String) (n : Nat) : String :=
  String.mk (s.toList.take (s.toList.length - n))

/-- ASCII lower-casing of one character. -/
def pyCharLower (c : Char) : Char :=
  if 'A' ≤ c ∧ c ≤ 'Z' then Char.ofNat (c.toNat + 32) else c

/-- Python `s.lower()` (ASCII). -/
def pyToLower (s : String) : String :=
  String.mk (s.toList.map pyCharLower)

/-- Numeric value of a digit string. -/
def digitsVal (l : List Char) : Nat :=
  l.foldl (fun a c => a * 10 + (c.toNat - 48)) 0

/-- Python `key in v`: key membership for dictionaries, substring test for
strings, TypeError for None.  List membership would compare the key with
each element; no element of a parsed record is compared this way, so the
list case returns false. -/
def pyContainsKey (v : XVal) (k : String) : Except PyErr Bool :=
  match v with
  | .obj fs => .ok (fs.lookup k).isSome
  | .str s => .ok (strContainsSub k s)
  | .list _ => .ok false
  | .null => .error .typeError

/-- Python `for x in v`: lists iterate their items, dictionaries iterate
their keys, strings iterate their characters, None raises TypeError. -/
def pyIter (v : XVal) : Except PyErr (List XVal) :=
  match v with
  | .list xs => .ok xs.toList
  | .obj fs => .ok (fs.keys.map XVal.str)
  | .str s => .ok (s.toList.map (fun c => XVal.str (String.mk [c])))
  | .null => .error .typeError

mutual

/-- `_get_text_recursively` from pubmed_searcher.py: None yields the empty
string, strings are returned as-is, and lists/dictionaries are flattened
depth-first with their pieces joined by single spaces. -/
def getTextRecursively : XVal → String
  | .null => ""
  | .str s => s
  | .list xs => strIntercalate " " (textOfItems xs)
  | .obj fs => strIntercalate " " (textOfFields fs)

def textOfItems : XItems → List String
  | .nil => []
  | .cons v rest => getTextRecursively v :: textOfItems rest

def textOfFields : XFields → List String
  | .nil => []
  | .cons _ v rest => getTextRecursively v :: textOfFields rest

end

/-- Python `s.isdigit()` (ASCII digits). -/
def pyIsDigit (s : String) : Bool :=
  s.length > 0 && s.toList.all Char.isDigit

/-- Python `int(s)` on a string: optional surrounding whitespace, optional
sign, then at least one digit; anything else raises ValueError. -/
def pyIntStr (s : String) : Except PyErr Int :=
  let tl := (pyTrim s).toList
  let (sign, digits) :=
    match tl with
    | '-' :: rest => ((-1 : Int), rest)
    | '+' :: rest => ((1 : Int), rest)
    | l => ((1 : Int), l)
  if 0 < digits.length && digits.all Char.isDigit then
    .ok (sign * Int.ofNat (digitsVal digits))
  else
    .error (.valueError "invalid literal for int")

/-- Python `int(v)` on a parsed XML value: strings are parsed, everything
else (None, dict, list) raises TypeError. -/
def pyInt (v : XVal) : Except PyErr Int :=
  match v with
  | .str s => pyIntStr s
  | _ => .error .typeError

/-- Python `len(v)`: length of a string, list or dictionary; TypeError on
None.  (The source only calls len after a `is None` check.) -/
def pyLen (v : XVal) : Except PyErr Nat :=
  match v with
  | .str s => .ok s.length
  | .list xs => .ok xs.toList.length
  | .obj fs => .ok fs.keys.length
  | .null => .error .typeError

/-- The stored form of a value that Python would keep as `Optional[str]`:
a string stays, None becomes none; container values never occur at the
places this is used. -/
def xvalToOptStr (v : XVal) : Option String :=
  match v with
  | .str s => some s
  | _ => none

/-- Python f-string interpolation of a record value: a string prints
itself, None prints as "None"; container reprs are not needed by any
record considered here. -/
def pyFmt (v : XVal) : String :=
  match v with
  | .str s => s
  | .null => "None"
  | _ => ""

/-
Data model.  The `Publication`/`Paper` entity classes live in the
findpapers models package, which is outside the harvested source tree;
they are modelled from the spec (section 3) with exactly the fields this
core reads or writes.
-/

/-- Modelled from the spec: the `Publication` entity (models package not in
the source tree) — title (required, record rejected when empty), optional
ISSN, category.  The title and ISSN hold whatever parsed value the source
stores into them. -/
structure Publication where
  title : XVal
  issn : XVal
  category : String

/-- A Gregorian calendar date as produced by Python `datetime.date`. -/
structure PDate where
  year : Int
  month : Int
  day : Int

/-- Modelled from the spec: the `Paper` entity (models package not in the
source tree) — the fields the PubMed searcher populates, plus the set of
source-database labels filled by `add_database`. -/
structure Paper where
  title : String
  abstract : String
  authors : List String
  publication : Option Publication
  publicationDate : PDate
  urls : List String
  doi : Option String
  keywords : List String
  numberOfPages : Option Int
  pages : Option String
  databases : List String

/-- `Paper.add_database`: adds a database label to the paper's set of
source databases. -/
def addDatabase (p : Paper) (label : String) : Paper :=
  if label ∈ p.databases then p else { p with databases := p.databases ++ [label] }

/-- Python `datetime.date` leap-year rule. -/
def isLeapYear (y : Int) : Bool :=
  y % 4 = 0 && (y % 100 ≠ 0 || y % 400 = 0)

/-- Days in a month per Python `datetime.date`. -/
def daysInMonth (y m : Int) : Int :=
  if m = 2 then (if isLeapYear y then 29 else 28)
  else if m = 4 ∨ m = 6 ∨ m = 9 ∨ m = 11 then 30
  else 31

/-- Python `datetime.date(y, m, d)`: validates year 1..9999, month 1..12
and day against the month length, raising ValueError otherwise. -/
def mkDate (y m d : Int) : Except PyErr PDate :=
  if 1 ≤ y ∧ y ≤ 9999 ∧ 1 ≤ m ∧ m ≤ 12 ∧ 1 ≤ d ∧ d ≤ daysInMonth y m then
    .ok ⟨y, m, d⟩
  else
    .error (.valueError "date value out of range")

/-- The static month-name table behind `get_numeric_month_by_string`. -/
def monthNameTable : List (String × Nat) :=
  [("Jan", 1), ("Feb", 2), ("Mar", 3), ("Apr", 4), ("May", 5), ("Jun", 6),
   ("Jul", 7), ("Aug", 8), ("Sep", 9), ("Oct", 10), ("Nov", 11), ("Dec", 12),
   ("January", 1), ("February", 2), ("March", 3), ("April", 4),
   ("June", 6), ("July", 7), ("August", 8), ("September", 9),
   ("October", 10), ("November", 11), ("December", 12)]

/-- Modelled from the spec: `common_util.get_numeric_month_by_string` (the
common_util module is not in the source tree) — maps a month name to its
numeric month via a static month-name table; an already numeric string is
kept; a value that cannot be mapped (including None) yields no month, so
the caller's `int(...)` fails and the year-only fallback applies. -/
def getNumericMonthByString (v : XVal) : XVal :=
  match v with
  | .str s =>
    if pyIsDigit s then .str s
    else
      match monthNameTable.find? (fun p => p.1 = s) with
      | some p => .str (toString p.2)
      | none => .null
  | _ => .null

/-
`_get_publication` from pubmed_searcher.py, line by line:

    article = paper_entry.get("MedlineCitation").get("Article")
    publication_title = article.get("Journal").get("Title")
    if publication_title is None or len(publication_title) == 0:
        return None
    publication_issn = article.get("Journal").get("ISSN").get("#text")
    publication = Publication(publication_title, None, publication_issn, None, "Journal")
    return publication
-/

/-- `_get_publication`: builds the `Publication` for a paper entry, or None
when the journal title is missing or empty; any AttributeError from the
chained `.get` calls propagates. -/
def getPublication (paper_entry : XVal) : Except PyErr (Option Publication) := do
  let medline ← pyGet paper_entry "MedlineCitation"
  let article ← pyGet medline "Article"
  let journal ← pyGet article "Journal"
  let titleV ← pyGet journal "Title"
  match titleV with
  | .null => pure none
  | t => do
    let n ← pyLen t
    if n = 0 then
      pure none
    else do
      let journal2 ← pyGet article "Journal"
      let issnV ← pyGet journal2 "ISSN"
      let issnText ← pyGet issnV "#text"
      pure (some ⟨t, issnText, "Journal"⟩)

/-- The DOI scan of `_get_paper`: iterate the article identifiers, stopping
at the first entry that is a dict tagged `@IdType == "doi"`, and keep its
`#text` value. -/
def findDoi : List XVal → Option String
  | [] => none
  | .obj fs :: rest =>
    match fs.lookup "@IdType" with
    | some (.str t) =>
      if t = "doi" then xvalToOptStr ((fs.lookup "#text").getD .null)
      else findDoi rest
    | _ => findDoi rest
  | _ :: rest => findDoi rest

/-- The author formatting of `_get_paper`: `f"{a.get('ForeName')} {a.get('LastName')}"`. -/
def formatAuthor (fs : XFields) : String :=
  pyFmt ((fs.lookup "ForeName").getD .null) ++ " " ++ pyFmt ((fs.lookup "LastName").getD .null)

/-- The author accumulation loop of `_get_paper`: strings are kept as-is,
dicts are formatted as "ForeName LastName", anything else is skipped. -/
def collectAuthors : List XVal → List String
  | [] => []
  | .str s :: rest => s :: collectAuthors rest
  | .obj fs :: rest => formatAuthor fs :: collectAuthors rest
  | _ :: rest => collectAuthors rest

/-- `_get_paper` from pubmed_searcher.py: builds a `Paper` from a PubMed
entry, returning None for a rejected record (empty title or no usable
publication date), raising ValueError "Paper abstract is empty" when the
abstract is absent, and propagating any AttributeError/TypeError from the
structure walks that are not wrapped in a try/except. -/
def getPaper (paper_entry : XVal) (publication : Option Publication) :
    Except PyErr (Option Paper) := do
  let medline ← pyGet paper_entry "MedlineCitation"
  let article ← pyGet medline "Article"
  let titleV ← pyGet article "ArticleTitle"
  let paper_title := getTextRecursively titleV
  if paper_title.length = 0 then
    pure none
  else do
    let hasArticleDate ← pyContainsKey article "ArticleDate"
    let (dayV, monthV, yearV) ←
      if hasArticleDate then do
        let ad ← pyGet article "ArticleDate"
        let d ← pyGet ad "Day"
        let m ← pyGet ad "Month"
        let y ← pyGet ad "Year"
        pure (d, m, y)
      else do
        let journal ← pyGet article "Journal"
        let ji ← pyGet journal "JournalIssue"
        let pd ← pyGet ji "PubDate"
        let m ← pyGet pd "Month"
        let y ← pyGet pd "Year"
        pure (XVal.str "1", getNumericMonthByString m, y)
    let pubmedData ← pyGet paper_entry "PubmedData"
    let idList ← pyGet pubmedData "ArticleIdList"
    let idsV ← pyGet idList "ArticleId"
    let ids ← pyIter idsV
    let paper_doi := findDoi ids
    let absSection ← pyGetOr article "Abstract" (xobj [])
    let absTextV ← pyGet absSection "AbstractText"
    match absTextV with
    | .null => .error (.valueError "Paper abstract is empty")
    | absText => do
      let paper_abstract :=
        match absText with
        | .list xs => strIntercalate "\n" ((xs.toList).map getTextRecursively)
        | v => getTextRecursively v
      let paper_keywords : List String :=
        match (do
          let ml ← pyGet paper_entry "MedlineCitation"
          let kl ← pyGet ml "KeywordList"
          let kw ← pyGet kl "Keyword"
          let items ← pyIter kw
          pure (items.map (fun x => pyTrim (getTextRecursively x))) :
            Except PyErr (List String)) with
        | .ok l => l.dedup
        | .error _ => []
      let dateAttempt : Except PyErr PDate := do
        let y ← pyInt yearV
        let m ← pyInt monthV
        let d ← pyInt dayV
        mkDate y m d
      let pubDateE : Except PyErr (Option PDate) :=
        match dateAttempt with
        | .ok dt => .ok (some dt)
        | .error _ =>
          match yearV with
          | .null => .ok none
          | yv => do
            let y ← pyInt yv
            let dt ← mkDate y 1 1
            pure (some dt)
      let pubDate? ← pubDateE
      match pubDate? with
      | none => pure none
      | some pubDate => do
        let authorList ← pyGet article "AuthorList"
        let authorV ← pyGet authorList "Author"
        let retrieved ←
          match authorV with
          | .obj fs => pure [XVal.obj fs]
          | v => pyIter v
        let paper_authors := collectAuthors retrieved
        let (paper_pages, paper_number_of_pages) :
            Option String × Option Int :=
          match (do
            let pag ← pyGet article "Pagination"
            pyGet pag "MedlinePgn" : Except PyErr XVal) with
          | .error _ => (none, none)
          | .ok pg =>
            match pg with
            | .str s =>
              if pyIsDigit s then (some s, none)
              else
                let parts := pySplit s "-"
                match (do
                  let a ← match parts[0]? with
                    | some x => Except.ok x
                    | none => Except.error PyErr.typeError
                  let b ← match parts[1]? with
                    | some x => Except.ok x
                    | none => Except.error PyErr.typeError
                  let ia ← pyIntStr a
                  let ib ← pyIntStr b
                  pure (((ia - ib).natAbs : Int) + 1) : Except PyErr Int) with
                | .ok n => (some s, some n)
                | .error _ => (some s, none)
            | other => (xvalToOptStr other, none)
        pure (some {
          title := paper_title
          abstract := paper_abstract
          authors := paper_authors
          publication := publication
          publicationDate := pubDate
          urls := []
          doi := paper_doi
          keywords := paper_keywords
          numberOfPages := paper_number_of_pages
          pages := paper_pages
          databases := [] })

/-
`run` from pubmed_searcher.py.  The search endpoint envelope
(`eSearchResult` with `ErrorList`, `Count` and `IdList.Id`) and the fetch
endpoint envelope (`PubmedArticleSet.PubmedArticle`) are modelled
structurally: `esearch` maps a start offset to the parsed envelope fields
the loop reads, `efetch` maps the page's identifier list to the list of
PubmedArticle entries it yields.  The external collector boundary
(`Search.reached_its_limit` / `Search.add_paper`, outside the source
tree) is modelled from the spec as a predicate on the number of accepted
papers plus an accumulating list.
-/

/-- The fields of the parsed `eSearchResult` envelope read by `run`:
whether an `ErrorList` is present, the reported `Count`, and the page's
`IdList.Id` identifiers. -/
structure ESearchResult where
  hasErrorList : Bool
  count : Nat
  ids : List String

/-- The two PubMed endpoints consumed by `run`. -/
structure PubmedAPI where
  esearch : Nat → ESearchResult
  efetch : List String → List XVal

/-- The body of the per-record try/except in `run` (lines 345-368): a None
entry is skipped; otherwise the title is looked up for logging, the
publication and paper are extracted, and the paper (if any) is tagged with
the PubMed label.  Any exception is logged and re-raised, so it surfaces
as an error here. -/
def extractEntry (paper_entry : XVal) : Except PyErr (Option Paper) :=
  match paper_entry with
  | .null => .ok none
  | e => do
    let medline ← pyGet e "MedlineCitation"
    let article ← pyGet medline "Article"
    let titleV ← pyGet article "ArticleTitle"
    let _paper_title := getTextRecursively titleV
    let publication ← getPublication e
    let paper? ← getPaper e publication
    match paper? with
    | some p => pure (some (addDatabase p "PubMed"))
    | none => pure none

/-- The inner for-loop of `run`: walk the page's entries in order, break
as soon as the count reaches the total or the external limit is reached,
otherwise count the record, extract it, and accept a non-None paper.
Returns the updated count and accepted papers, or the first re-raised
exception. -/
def processPage (total : Nat) (limit : Nat → Bool) :
    List XVal → Nat → List Paper → Except PyErr (Nat × List Paper)
  | [], pc, acc => .ok (pc, acc)
  | e :: rest, pc, acc =>
    if total ≤ pc ∨ limit acc.length = true then .ok (pc, acc)
    else
      match extractEntry e with
      | .error err => .error err
      | .ok none => processPage total limit rest (pc + 1) acc
      | .ok (some p) => processPage total limit rest (pc + 1) (acc ++ [p])

/-- The outcome of a harvest run: normal completion (final count, accepted
papers, offsets of the issued esearch fetches in order), an uncaught
exception (with the offsets fetched before it), fuel exhaustion of the
model, or the up-front skip on publication-type filters. -/
inductive RunOutcome where
  | done : Nat → List Paper → List Nat → RunOutcome
  | err : PyErr → List Nat → RunOutcome
  | fuelOut : RunOutcome
  | skipped : RunOutcome

/-- The while-loop of `run`: while `papers_count < total_papers` and the
limit is not reached, fetch the page entries, process them, and — when
the same condition still holds — issue the next esearch at offset
`papers_count` and continue.  The re-check of the unchanged condition at
the top of the next Python iteration is folded into the bottom test. -/
def runLoop (api : PubmedAPI) (limit : Nat → Bool) (total : Nat) :
    Nat → Nat → List Paper → ESearchResult → List Nat → RunOutcome
  | 0, _, _, _, _ => .fuelOut
  | fuel + 1, pc, acc, result, offs =>
    if pc < total ∧ limit acc.length = false then
      match processPage total limit (api.efetch result.ids) pc acc with
      | .error e => .err e offs
      | .ok (pc', acc') =>
        if pc' < total ∧ limit acc'.length = false then
          runLoop api limit total fuel pc' acc' (api.esearch pc') (offs ++ [pc'])
        else .done pc' acc' offs
    else .done pc acc offs

/-- `run` after the publication-type guard: issue the initial esearch at
offset 0, read the total (0 when an ErrorList is present), and drive the
pagination loop. -/
def runPubmedSearch (api : PubmedAPI) (limit : Nat → Bool) (fuel : Nat) : RunOutcome :=
  let result := api.esearch 0
  let total := if result.hasErrorList then 0 else result.count
  runLoop api limit total fuel 0 [] result [0]

/-- `run` from pubmed_searcher.py: skip the source when a publication-type
filter excludes journals, otherwise harvest. -/
def runPubmed (api : PubmedAPI) (limit : Nat → Bool)
    (pubTypes : Option (List String)) (fuel : Nat) : RunOutcome :=
  match pubTypes with
  | some ts => if "journal" ∈ ts then runPubmedSearch api limit fuel else .skipped
  | none => runPubmedSearch api limit fuel

/-- The total the loop works against for a given api. -/
def apiTotal (api : PubmedAPI) : Nat :=
  if (api.esearch 0).hasErrorList then 0 else (api.esearch 0).count

/-- A limit predicate that never triggers. -/
def limFalse : Nat → Bool := fun _ => false

/-
`find_pdf_url` / `download_paper` from downloader_tool.py.  An HTTP
response is modelled by its resolved URL (after redirects) and its
content-type header; `fetch` maps a candidate URL to the HEAD response,
or none when `try_success` exhausts its retries.
-/

/-- A HEAD response as consumed by `find_pdf_url`: the resolved URL after
redirect following and the content-type header (none when absent). -/
structure HeadResponse where
  url : String
  contentType : Option String

/-- The pieces of `urllib.parse.urlsplit` used by `find_pdf_url`. -/
structure UrlParts where
  scheme : String
  hostname : String
  path : String
  query : String

/-- `urllib.parse.urlsplit` for the absolute http(s) URLs handled here:
scheme before "://", netloc up to the first of "/", "?" or "#" (the
hostname is the lowercased netloc, with any userinfo and port stripped),
then path, query and a discarded fragment. -/
def pyUrlsplit (u : String) : UrlParts :=
  let (scheme, rest) :=
    match pySplit u "://" with
    | [_] => ("", u)
    | [] => ("", u)
    | sch :: parts => (sch, strIntercalate "://" parts)
  let cs := rest.toList
  let netloc := cs.takeWhile (fun c => c ≠ '/' ∧ c ≠ '?' ∧ c ≠ '#')
  let after := (cs.drop netloc.length).takeWhile (fun c => c ≠ '#')
  let (pathCs, queryCs) :=
    match after with
    | '?' :: q => (([] : List Char), q)
    | p =>
      let pa := p.takeWhile (fun c => c ≠ '?')
      let qa := p.drop (pa.length + 1)
      (pa, qa)
  let hostPart := (pySplit (String.mk netloc) "@").getLastD (String.mk netloc)
  let host := (pySplit hostPart ":").headD hostPart
  ⟨scheme, pyToLower host, String.mk pathCs, String.mk queryCs⟩

/-- `urllib.parse.parse_qs(...).get(key)[0]`: first value of the key in
the query string, skipping pairs without "=" and blank values. -/
def parseQsFirst (query key : String) : Option String :=
  ((pySplit query "&").filterMap (fun kv =>
    match pySplit kv "=" with
    | [] => none
    | [_] => none
    | k :: vs =>
      let v := strIntercalate "=" vs
      if k = key ∧ v ≠ "" then some v else none)).head?

/-- Python `str.zfill` for the unsigned numeric identifiers it is applied
to: left-pad with zeros to the given width. -/
def pyZfill (s : String) (width : Nat) : String :=
  if width ≤ s.length then s
  else String.mk (List.replicate (width - s.length) '0') ++ s

/-- The content-type test `needle in response.headers.get("content-type").lower()`:
AttributeError when the header is absent. -/
def ctContains (r : HeadResponse) (needle : String) : Except PyErr Bool :=
  match r.contentType with
  | none => .error .attrError
  | some ct => .ok (strContainsSub needle (pyToLower ct))

/-- The per-domain rule chain of `find_pdf_url` applied to an HTML landing
response (lines 38-140 of downloader_tool.py): classify the resolved host
and derive the publisher-specific PDF URL, or none when no rule applies
(including the `continue` cases of the ACM and IEEE rules). -/
def htmlRules (paperDoi : Option String) (response : HeadResponse) : Option String :=
  let parts := pyUrlsplit response.url
  let host_url := parts.scheme ++ "://" ++ parts.hostname
  let path0 := parts.path
  let path1 := if pyEndsWith path0 "/" then pyStrDropRight path0 1 else path0
  let path := (pySplit path1 "?").headD path1
  if host_url ∈ ["https://dl.acm.org"] then
    match paperDoi with
    | none =>
      if pyStartsWith path "/doi/" ∧ strContainsSub "/doi/pdf/" path = false then
        some ("https://dl.acm.org/doi/pdf/" ++ pyStrDrop path 4)
      else none
    | some d => some ("https://dl.acm.org/doi/pdf/" ++ d)
  else if host_url ∈ ["https://ieeexplore.ieee.org"] then
    if pyStartsWith path "/document/" then
      some (host_url ++ "/stampPDF/getPDF.jsp?tp=&arnumber=" ++ pyStrDrop path 10)
    else
      match parseQsFirst parts.query "arnumber" with
      | some docId => some (host_url ++ "/stampPDF/getPDF.jsp?tp=&arnumber=" ++ docId)
      | none => none
  else if host_url ∈ ["https://www.sciencedirect.com", "https://linkinghub.elsevier.com"] then
    let paper_id := (pySplit path "/").getLastD ""
    some ("https://www.sciencedirect.com/science/article/pii/" ++ paper_id ++
      "/pdfft?isDTMRedir=true&download=true")
  else if host_url ∈ ["https://pubs.rsc.org"] then
    some (pyReplace response.url "/articlelanding/" "/articlepdf/")
  else if host_url ∈ ["https://www.tandfonline.com", "https://www.frontiersin.org"] then
    some (pyReplace response.url "/full" "/pdf")
  else if host_url ∈ ["https://pubs.acs.org", "https://journals.sagepub.com",
      "https://royalsocietypublishing.org"] then
    some (pyReplace response.url "/doi" "/doi/pdf")
  else if host_url ∈ ["https://link.springer.com"] then
    some ((pyReplace (pyReplace response.url "/article/" "/content/pdf/") "%2F" "/") ++ ".pdf")
  else if host_url ∈ ["https://www.isca-speech.org"] then
    some (pyReplace (pyReplace response.url "/abstracts/" "/pdfs/") ".html" ".pdf")
  else if host_url ∈ ["https://onlinelibrary.wiley.com"] then
    some (pyReplace (pyReplace response.url "/full/" "/pdfdirect/") "/abs/" "/pdfdirect/")
  else if host_url ∈ ["https://www.jmir.org", "https://www.mdpi.com"] then
    some (response.url ++ "/pdf")
  else if host_url ∈ ["https://www.pnas.org"] then
    some ((pyReplace response.url "/content/" "/content/pnas/") ++ ".full.pdf")
  else if host_url ∈ ["https://www.jneurosci.org"] then
    some ((pyReplace response.url "/content/" "/content/jneuro/") ++ ".full.pdf")
  else if host_url ∈ ["https://www.ijcai.org"] then
    let segs := pySplit response.url "/"
    let paper_id := pyZfill (segs.getLastD "") 4
    some (strIntercalate "/" segs.dropLast ++ "/" ++ paper_id ++ ".pdf")
  else if host_url ∈ ["https://asmp-eurasipjournals.springeropen.com"] then
    some (pyReplace response.url "/articles/" "/track/pdf/")
  else none

/-- One iteration of the candidate loop in `find_pdf_url`: a failed fetch
is skipped; an HTML response goes through the per-domain rules; a PDF
content-type resolves to the response's URL; any exception inside the try
(here: a missing content-type header) is logged and leaves no PDF URL. -/
def tryCandidate (fetch : String → Option HeadResponse) (paperDoi : Option String)
    (url : String) : Option String :=
  match fetch url with
  | none => none
  | some response =>
    match (do
      let isHtml ← ctContains response "text/html"
      if isHtml then
        pure (htmlRules paperDoi response)
      else do
        let isPdf ← ctContains response "application/pdf"
        if isPdf then pure (some response.url) else pure none :
        Except PyErr (Option String)) with
    | .ok r => r
    | .error _ => none

/-- `find_pdf_url` from downloader_tool.py: walk the paper's candidate
URLs in order and stop at the first candidate that yields a PDF URL;
None when no candidate resolves. -/
def find_pdf_url (fetch : String → Option HeadResponse) (paperDoi : Option String) :
    List String → Option String
  | [] => none
  | u :: rest =>
    match tryCandidate fetch paperDoi u with
    | some p => some p
    | none => find_pdf_url fetch paperDoi rest

/-- A GET response as consumed by `download_paper`. -/
structure GetResponse where
  contentType : Option String

/-- `download_paper` from downloader_tool.py, as a function of the
observable inputs: whether the output file already exists, the paper's
stored pdf_url, the result `find_pdf_url` would produce, and the GET
response for the resolved URL (none when `try_success` fails, making the
subsequent attribute access raise).  Returns whether the PDF bytes were
written and the returned filepath (none exactly in the no-pdf-url
branch). -/
def download_paper (existsAlready : Bool) (paperPdfUrl : Option String)
    (resolvedPdfUrl : Option String) (getResp : Option GetResponse)
    (outputFilepath : String) : Except PyErr (Bool × Option String) :=
  if existsAlready then .ok (false, some outputFilepath)
  else
    let pdfUrl := match paperPdfUrl with
      | some u => some u
      | none => resolvedPdfUrl
    match pdfUrl with
    | some _ =>
      match getResp with
      | none => .error .attrError
      | some r =>
        match r.contentType with
        | none => .error .attrError
        | some ct =>
          if strContainsSub "application/pdf" (pyToLower ct) then
            .ok (true, some outputFilepath)
          else
            .ok (false, some outputFilepath)
    | none => .ok (false, none)

/-- The per-paper bookkeeping of `download` (lines 269-283): a paper is
recorded as downloaded exactly when `download_paper` returned a non-None
filepath. -/
def downloadMarked (outputFilepath : Option String) : Bool :=
  outputFilepath.isSome

/-
Concrete records and apis used by the theorems below.
-/

/-- A well-formed PubMed record: title "T", abstract "A", one author dict,
one DOI identifier, a journal without a title, and the given article-date
fields, journal-issue publication-date fields and pagination. -/
def sampleRecord (articleDate : Option (String × String × String))
    (pubDate : List (String × XVal)) (pagination : Option XVal) : XVal :=
  xobj [
    ("MedlineCitation", xobj [
      ("Article", xobj (
        [("ArticleTitle", xstr "T"),
         ("Journal", xobj [("JournalIssue", xobj [("PubDate", xobj pubDate)])]),
         ("Abstract", xobj [("AbstractText", xstr "A")]),
         ("AuthorList", xobj [("Author", xobj [("ForeName", xstr "A"), ("LastName", xstr "B")])])]
        ++ (match articleDate with
            | some (d, m, y) =>
              [("ArticleDate", xobj [("Day", xstr d), ("Month", xstr m), ("Year", xstr y)])]
            | none => [])
        ++ (match pagination with
            | some pg => [("Pagination", xobj [("MedlinePgn", pg)])]
            | none => [])))]),
    ("PubmedData", xobj [("ArticleIdList", xobj [("ArticleId",
      xlist [xobj [("@IdType", xstr "doi"), ("#text", xstr "10.1/x")]])])])]

/-- A minimal record whose extraction succeeds trivially: the article
title is absent, so `_get_paper` rejects it (returns None) before any
other field is consulted, and `_get_publication` returns None. -/
def cheapRec : XVal :=
  xobj [("MedlineCitation", xobj [("Article", xobj [("Journal", xobj [])])])]

/-- A record with an explicit ArticleDate but no Abstract section:
extraction reaches the abstract check and raises. -/
def noAbstractRec : XVal :=
  xobj [
    ("MedlineCitation", xobj [
      ("Article", xobj [
        ("ArticleTitle", xstr "T"),
        ("Journal", xobj []),
        ("ArticleDate", xobj [("Day", xstr "1"), ("Month", xstr "2"), ("Year", xstr "2020")])])]),
    ("PubmedData", xobj [("ArticleIdList", xobj [("ArticleId", xlist [])])])]

/-- A source reporting 120 results, served in full pages of up to 50
trivially-rejected records. -/
def api120 : PubmedAPI :=
  { esearch := fun k => ⟨false, 120, List.replicate (min 50 (120 - k)) ""⟩
    efetch := fun ids => ids.map (fun _ => cheapRec) }

/-- A source reporting zero results. -/
def apiZero : PubmedAPI :=
  { esearch := fun _ => ⟨false, 0, []⟩
    efetch := fun _ => [] }

/-- A source reporting 60 results whose first page starts with a record
lacking an abstract. -/
def apiC1 : PubmedAPI :=
  { esearch := fun _ => ⟨false, 60, [""]⟩
    efetch := fun ids => ids.map (fun _ => noAbstractRec) }

/-
Projections used to state field-level facts about an extraction result.
-/

/-- The publication date of an accepted paper, none otherwise. -/
def paperDateOf (r : Except PyErr (Option Paper)) : Option PDate :=
  match r with
  | .ok (some p) => some p.publicationDate
  | _ => none

/-- The DOI of an extraction result: some (doi of the paper) when a paper
was accepted, none otherwise. -/
def paperDoiOf (r : Except PyErr (Option Paper)) : Option (Option String) :=
  match r with
  | .ok (some p) => some p.doi
  | _ => none

/-- The author list of an accepted paper. -/
def paperAuthorsOf (r : Except PyErr (Option Paper)) : Option (List String) :=
  match r with
  | .ok (some p) => some p.authors
  | _ => none

/-- The abstract of an accepted paper. -/
def paperAbstractOf (r : Except PyErr (Option Paper)) : Option String :=
  match r with
  | .ok (some p) => some p.abstract
  | _ => none

/-- The keyword list of an accepted paper. -/
def paperKeywordsOf (r : Except PyErr (Option Paper)) : Option (List String) :=
  match r with
  | .ok (some p) => some p.keywords
  | _ => none

/-- The raw pages text and derived page count of an accepted paper. -/
def paperPagesOf (r : Except PyErr (Option Paper)) :
    Option (Option String × Option Int) :=
  match r with
  | .ok (some p) => some (p.pages, p.numberOfPages)
  | _ => none

/-
Helper lemmas.
-/

theorem except_bind_ok {ε α β : Type} (a : α) (f : α → Except ε β) :
    (Except.ok a : Except ε α) >>= f = f a := rfl

theorem except_bind_error {ε α β : Type} (e : ε) (f : α → Except ε β) :
    (Except.error e : Except ε α) >>= f = Except.error e := rfl

/-- `processPage` never decreases the record count, and never pushes it
past the total. -/
theorem processPage_mono (total : Nat) (limit : Nat → Bool) :
    ∀ (entries : List XVal) (pc : Nat) (acc : List Paper) (pc' : Nat) (acc' : List Paper),
      processPage total limit entries pc acc = .ok (pc', acc') →
      pc ≤ pc' ∧ (pc ≤ total → pc' ≤ total) := by
  intro entries
  induction entries with
  | nil =>
    intro pc acc pc' acc' h
    simp only [processPage, Except.ok.injEq, Prod.mk.injEq] at h
    omega
  | cons e rest ih =>
    intro pc acc pc' acc' h
    rw [processPage] at h
    by_cases hc : total ≤ pc ∨ limit acc.length = true
    · rw [if_pos hc] at h
      simp only [Except.ok.injEq, Prod.mk.injEq] at h
      omega
    · rw [if_neg hc] at h
      have hlt : pc < total := by
        rcases Nat.lt_or_ge pc total with h1 | h1
        · exact h1
        · exact absurd (Or.inl h1) hc
      cases hx : extractEntry e with
      | error err => rw [hx] at h; cases h
      | ok r =>
        rw [hx] at h
        cases r with
        | none =>
          have := ih (pc + 1) acc pc' acc' h
          omega
        | some p =>
          have := ih (pc + 1) (acc ++ [p]) pc' acc' h
          omega

/-- On a page whose entries all extract without an exception, and that
fits inside the remaining total, `processPage` with a never-true limit
examines every entry and increments the count by exactly one per
record. -/
theorem processPage_full (total : Nat) :
    ∀ (entries : List XVal) (pc : Nat) (acc : List Paper),
      (∀ e ∈ entries, ∃ r, extractEntry e = .ok r) →
      pc + entries.length ≤ total →
      ∃ acc', processPage total limFalse entries pc acc = .ok (pc + entries.length, acc') := by
  intro entries
  induction entries with
  | nil =>
    intro pc acc _ _
    exact ⟨acc, by simp [processPage]⟩
  | cons e rest ih =>
    intro pc acc hgood hle
    have hcond : ¬ (total ≤ pc ∨ limFalse acc.length = true) := by
      intro hor
      rcases hor with h1 | h1
      · simp only [List.length_cons] at hle
        omega
      · exact Bool.noConfusion h1
    obtain ⟨r, hr⟩ := hgood e (List.mem_cons_self e rest)
    have hrest : ∀ x ∈ rest, ∃ q, extractEntry x = .ok q := by
      intro x hx
      exact hgood x (List.mem_cons_of_mem e hx)
    have harith : pc + (e :: rest).length = pc + 1 + rest.length := by
      simp only [List.length_cons]
      omega
    have hle2 : pc + 1 + rest.length ≤ total := by
      simp only [List.length_cons] at hle
      omega
    cases r with
    | none =>
      obtain ⟨acc', hacc⟩ := ih (pc + 1) acc hrest hle2
      refine ⟨acc', ?_⟩
      rw [processPage, if_neg hcond, hr, harith]
      exact hacc
    | some p =>
      obtain ⟨acc', hacc⟩ := ih (pc + 1) (acc ++ [p]) hrest hle2
      refine ⟨acc', ?_⟩
      rw [processPage, if_neg hcond, hr, harith]
      exact hacc

/-- When the loop reaches `done`, the count equals the total or the limit
predicate holds. -/
theorem runLoop_done_term (api : PubmedAPI) (limit : Nat → Bool) (total : Nat) :
    ∀ (fuel pc : Nat) (acc : List Paper) (result : ESearchResult) (offs : List Nat)
      (pc' : Nat) (acc' : List Paper) (offs' : List Nat),
      pc ≤ total →
      runLoop api limit total fuel pc acc result offs = .done pc' acc' offs' →
      pc' = total ∨ limit acc'.length = true := by
  intro fuel
  induction fuel with
  | zero =>
    intro pc acc result offs pc' acc' offs' _ h
    rw [runLoop] at h
    exact RunOutcome.noConfusion h
  | succ n ih =>
    intro pc acc result offs pc' acc' offs' hle h
    rw [runLoop] at h
    by_cases hc : pc < total ∧ limit acc.length = false
    · rw [if_pos hc] at h
      cases hpp : processPage total limit (api.efetch result.ids) pc acc with
      | error e =>
        simp only [hpp] at h
        exact RunOutcome.noConfusion h
      | ok v =>
        obtain ⟨pc2, acc2⟩ := v
        simp only [hpp] at h
        have hmono := processPage_mono total limit (api.efetch result.ids) pc acc pc2 acc2 hpp
        by_cases hc2 : pc2 < total ∧ limit acc2.length = false
        · rw [if_pos hc2] at h
          exact ih pc2 acc2 _ _ pc' acc' offs' (hmono.2 hle) h
        · rw [if_neg hc2] at h
          injection h with h1 h2 h3
          subst h1
          subst h2
          rcases Nat.lt_or_ge pc2 total with hx | hx
          · cases hb : limit acc2.length with
            | false => exact absurd ⟨hx, hb⟩ hc2
            | true => exact Or.inr rfl
          · refine Or.inl ?_
            have := hmono.2 hle
            omega
    · rw [if_neg hc] at h
      injection h with h1 h2 h3
      subst h1
      subst h2
      rcases Nat.lt_or_ge pc total with hx | hx
      · cases hb : limit acc.length with
        | false => exact absurd ⟨hx, hb⟩ hc
        | true => exact Or.inr rfl
      · exact Or.inl (by omega)

/-- A page at offset `k` is full and clean: it holds `min 50 (total - k)`
entries (MAX_ENTRIES_PER_PAGE is 50) and every entry extracts without an
exception. -/
def pageOk (api : PubmedAPI) (total k : Nat) : Prop :=
  (api.efetch (api.esearch k).ids).length = min 50 (total - k) ∧
  ∀ e ∈ api.efetch (api.esearch k).ids, ∃ r, extractEntry e = .ok r

/-- The esearch offsets the loop will fetch after reaching count `pc`. -/
def restOffsets (total pc : Nat) : List Nat :=
  if pc + 50 < total then (pc + 50) :: restOffsets total (pc + 50) else []
termination_by total - pc
decreasing_by omega

/-- Counting the fetch offsets: one fetch per started block of 50 records
in the remaining range. -/
theorem restOffsets_length :
    ∀ (d total pc : Nat), total - pc = d → pc < total →
      (restOffsets total pc).length + 1 = (total - pc + 49) / 50 := by
  intro d
  induction d using Nat.strong_induction_on with
  | _ d ih =>
    intro total pc hd hlt
    rw [restOffsets]
    by_cases h : pc + 50 < total
    · rw [if_pos h]
      simp only [List.length_cons]
      have := ih (total - (pc + 50)) (by omega) total (pc + 50) rfl h
      omega
    · rw [if_neg h]
      simp only [List.length_nil]
      omega

/-- Driving the loop across full clean pages with a never-true limit:
starting below the total with enough fuel, the loop completes at exactly
the total, appending one fetch offset per further page. -/
theorem runLoop_full (api : PubmedAPI) (total : Nat)
    (hpages : ∀ k, k < total → pageOk api total k) :
    ∀ (fuel pc : Nat) (acc : List Paper) (offs : List Nat),
      pc < total → total ≤ fuel + pc →
      ∃ acc', runLoop api limFalse total fuel pc acc (api.esearch pc) offs =
        .done total acc' (offs ++ restOffsets total pc) := by
  intro fuel
  induction fuel with
  | zero =>
    intro pc acc offs hlt hfuel
    omega
  | succ n ih =>
    intro pc acc offs hlt hfuel
    obtain ⟨hlen, hgood⟩ := hpages pc hlt
    have hfit : pc + (api.efetch (api.esearch pc).ids).length ≤ total := by
      rw [hlen]
      omega
    obtain ⟨acc', hpp⟩ :=
      processPage_full total (api.efetch (api.esearch pc).ids) pc acc hgood hfit
    rw [runLoop, if_pos ⟨hlt, rfl⟩]
    simp only [hpp]
    have hpc2 : pc + (api.efetch (api.esearch pc).ids).length = pc + min 50 (total - pc) := by
      rw [hlen]
    by_cases h2 : pc + (api.efetch (api.esearch pc).ids).length < total
    · rw [if_pos ⟨h2, rfl⟩]
      have heq : pc + (api.efetch (api.esearch pc).ids).length = pc + 50 := by omega
      have h50 : pc + 50 < total := by omega
      rw [heq]
      obtain ⟨acc'', hdone⟩ := ih (pc + 50) acc' (offs ++ [pc + 50]) h50 (by omega)
      refine ⟨acc'', ?_⟩
      rw [hdone]
      have hro : restOffsets total pc = (pc + 50) :: restOffsets total (pc + 50) := by
        rw [restOffsets, if_pos h50]
      rw [hro]
      simp
    · rw [if_neg (by intro hx; exact h2 hx.1)]
      have heq : pc + (api.efetch (api.esearch pc).ids).length = total := by omega
      refine ⟨acc', ?_⟩
      rw [heq]
      rw [restOffsets, if_neg (by omega)]
      simp

/-- A full clean harvest: with enough fuel the run completes at the total
and the number of issued esearch fetches is one per started block of 50,
with at least the one initial fetch. -/
theorem runPubmedSearch_full (api : PubmedAPI)
    (hpages : ∀ k, k < apiTotal api → pageOk api (apiTotal api) k)
    (fuel : Nat) (hfuel : apiTotal api < fuel) :
    ∃ acc offs, runPubmedSearch api limFalse fuel = .done (apiTotal api) acc offs ∧
      offs.length = max 1 ((apiTotal api + 49) / 50) := by
  obtain ⟨m, rfl⟩ : ∃ m, fuel = m + 1 := ⟨fuel - 1, by omega⟩
  by_cases h0 : apiTotal api = 0
  · refine ⟨[], [0], ?_, ?_⟩
    · show runLoop api limFalse (apiTotal api) (m + 1) 0 [] (api.esearch 0) [0] =
        RunOutcome.done (apiTotal api) [] [0]
      rw [h0]
      rw [runLoop, if_neg (by simp)]
    · rw [h0]
      rfl
  · have hpos : 0 < apiTotal api := Nat.pos_of_ne_zero h0
    obtain ⟨acc', hdone⟩ :=
      runLoop_full api (apiTotal api) hpages (m + 1) 0 [] [0] hpos (by omega)
    refine ⟨acc', [0] ++ restOffsets (apiTotal api) 0, ?_, ?_⟩
    · show runLoop api limFalse (apiTotal api) (m + 1) 0 [] (api.esearch 0) [0] =
        RunOutcome.done (apiTotal api) acc' ([0] ++ restOffsets (apiTotal api) 0)
      exact hdone
    · have := restOffsets_length (apiTotal api - 0) (apiTotal api) 0 rfl hpos
      simp only [List.length_append, List.length_cons, List.length_nil]
      omega

/-
Claim theorems.
-/

/-- C1 (counterexample): a harvest whose source reports 60 results and
whose first page starts with a record lacking an abstract does NOT
continue with the next page: the empty-abstract exception aborts the
whole run with only the initial fetch (offset 0) issued, contradicting
the claim that the overall harvest run continues. -/
theorem pubmed_empty_abstract_abort_counterexample :
    runPubmed apiC1 limFalse none 5 = .err (.valueError "Paper abstract is empty") [0] := rfl

/-- C1 (amended): for a record whose Abstract/AbstractText is absent,
extraction raises the distinct empty-abstract ValueError; the harvest
loop re-raises it, so processing of the current page stops and the
exception aborts the remainder of this source's harvest — no further
pages are fetched. -/
theorem pubmed_empty_abstract_propagates (api : PubmedAPI) (limit : Nat → Bool)
    (fuel total : Nat) (rest : List XVal)
    (hlim : limit 0 = false) (herr : (api.esearch 0).hasErrorList = false)
    (hcount : (api.esearch 0).count = total) (hpos : 0 < total)
    (hpage : api.efetch (api.esearch 0).ids = noAbstractRec :: rest) :
    getPaper noAbstractRec none = .error (.valueError "Paper abstract is empty") ∧
    runPubmed api limit none (fuel + 1) = .err (.valueError "Paper abstract is empty") [0] := by
  refine ⟨rfl, ?_⟩
  have hextract : extractEntry noAbstractRec = .error (.valueError "Paper abstract is empty") := rfl
  show runLoop api limit (if (api.esearch 0).hasErrorList then 0 else (api.esearch 0).count)
      (fuel + 1) 0 [] (api.esearch 0) [0] = .err (.valueError "Paper abstract is empty") [0]
  rw [herr, if_neg (by simp), hcount]
  rw [runLoop, if_pos ⟨hpos, by rw [List.length_nil]; exact hlim⟩]
  rw [hpage, processPage, if_neg ?hcond]
  case hcond =>
    intro hx
    rcases hx with h1 | h1
    · omega
    · rw [List.length_nil, hlim] at h1
      exact Bool.noConfusion h1
  simp only [hextract]

/-- C1 (witness): the amended behaviour at the concrete 60-result api. -/
theorem pubmed_empty_abstract_propagates_witness :
    getPaper noAbstractRec none = .error (.valueError "Paper abstract is empty") ∧
    runPubmed apiC1 limFalse none 5 = .err (.valueError "Paper abstract is empty") [0] :=
  pubmed_empty_abstract_propagates apiC1 limFalse 4 60 [] rfl rfl rfl (by omega) rfl

/-- A tiny 3-result source used to witness the step equation. -/
def apiTiny : PubmedAPI :=
  { esearch := fun _ => ⟨false, 3, [""]⟩
    efetch := fun ids => ids.map (fun _ => cheapRec) }

/-- C2: with total_count 120, page size 50 and a never-true limit, the
harvester issues exactly 3 esearch fetches at offsets 0, 50 and 100; and
in general, whenever a page is exhausted with the loop condition still
true, the next fetch is issued at offset equal to the current
papers_count. -/
theorem pubmed_offsets_120 :
    runPubmedSearch api120 limFalse 10 = .done 120 [] [0, 50, 100] ∧
    (∀ (api : PubmedAPI) (limit : Nat → Bool) (total fuel pc : Nat)
       (acc : List Paper) (result : ESearchResult) (offs : List Nat)
       (pc' : Nat) (acc' : List Paper),
       processPage total limit (api.efetch result.ids) pc acc = .ok (pc', acc') →
       pc < total → limit acc.length = false →
       pc' < total → limit acc'.length = false →
       runLoop api limit total (fuel + 1) pc acc result offs =
         runLoop api limit total fuel pc' acc' (api.esearch pc') (offs ++ [pc'])) := by
  constructor
  · rfl
  · intro api limit total fuel pc acc result offs pc' acc' hpage hpc hlim hpc2 hlim2
    rw [runLoop, if_pos ⟨hpc, hlim⟩]
    simp only [hpage]
    rw [if_pos ⟨hpc2, hlim2⟩]

/-- C2 (witness): the step equation at the 3-result source, after its
first page (one record) is exhausted at count 1: the next fetch is issued
at offset 1. -/
theorem pubmed_offsets_120_witness :
    runLoop apiTiny limFalse 3 2 0 [] (apiTiny.esearch 0) [0] =
      runLoop apiTiny limFalse 3 1 1 [] (apiTiny.esearch 1) ([0] ++ [1]) :=
  pubmed_offsets_120.2 apiTiny limFalse 3 1 0 [] (apiTiny.esearch 0) [0] 1 [] rfl
    (by omega) rfl (by omega) rfl

/-- C3 (counterexample): for a source reporting zero results the
harvester still issues its one initial fetch (offsets [0]), while
ceil(total_count / page_size) = ceil(0 / 50) = 0, so the fetch count is
not ceil(total_count / page_size). -/
theorem pubmed_fetch_count_zero_counterexample :
    runPubmedSearch apiZero limFalse 5 = .done 0 [] [0] ∧ ((0 + 49) / 50 : Nat) = 0 :=
  ⟨rfl, rfl⟩

/-- C3 (amended): across every harvest the record count never decreases
and never exceeds the total; on a clean page with room and no limit it
increases by exactly one per examined record; a run reaching done
terminated exactly because the count reached the total or the limit
became true; and a full clean harvest issues exactly
max 1 (ceil(total_count / 50)) esearch fetches — the initial fetch at
offset 0 is always issued, even when the total is 0. -/
theorem pubmed_pagination_invariants :
    (∀ (total : Nat) (limit : Nat → Bool) (entries : List XVal) (pc : Nat)
       (acc : List Paper) (pc' : Nat) (acc' : List Paper),
       processPage total limit entries pc acc = .ok (pc', acc') →
       pc ≤ pc' ∧ (pc ≤ total → pc' ≤ total)) ∧
    (∀ (total : Nat) (entries : List XVal) (pc : Nat) (acc : List Paper),
       (∀ e ∈ entries, ∃ r, extractEntry e = .ok r) →
       pc + entries.length ≤ total →
       ∃ acc', processPage total limFalse entries pc acc = .ok (pc + entries.length, acc')) ∧
    (∀ (api : PubmedAPI) (limit : Nat → Bool) (fuel pc : Nat)
       (acc : List Paper) (offs : List Nat),
       runPubmedSearch api limit fuel = .done pc acc offs →
       pc = apiTotal api ∨ limit acc.length = true) ∧
    (∀ (api : PubmedAPI) (fuel : Nat),
       (∀ k, k < apiTotal api → pageOk api (apiTotal api) k) →
       apiTotal api < fuel →
       ∃ acc offs, runPubmedSearch api limFalse fuel = .done (apiTotal api) acc offs ∧
         offs.length = max 1 ((apiTotal api + 49) / 50)) := by
  refine ⟨?_, ?_, ?_, ?_⟩
  · intro total limit entries pc acc pc' acc' h
    exact processPage_mono total limit entries pc acc pc' acc' h
  · intro total entries pc acc hgood hle
    exact processPage_full total entries pc acc hgood hle
  · intro api limit fuel pc acc offs h
    exact runLoop_done_term api limit
      (if (api.esearch 0).hasErrorList then 0 else (api.esearch 0).count)
      fuel 0 [] (api.esearch 0) [0] pc acc offs (Nat.zero_le _) h
  · intro api fuel hpages hfuel
    exact runPubmedSearch_full api hpages fuel hfuel

/-- C3 (witness): the fetch-count conjunct at the concrete 120-result
api: the harvest completes with exactly 3 fetches. -/
theorem pubmed_pagination_invariants_witness :
    ∃ (acc : List Paper) (offs : List Nat),
      runPubmedSearch api120 limFalse 121 = .done 120 acc offs ∧ offs.length = 3 := by
  have hpages : ∀ k, k < apiTotal api120 → pageOk api120 (apiTotal api120) k := by
    intro k hk
    constructor
    · show ((List.replicate (min 50 (120 - k)) "").map (fun _ => cheapRec)).length =
        min 50 (apiTotal api120 - k)
      rw [List.length_map, List.length_replicate]
      rfl
    · intro e he
      have he2 : e = cheapRec := by
        rcases List.mem_map.mp he with ⟨x, _, hx⟩
        exact hx.symm
      exact ⟨none, by rw [he2]; rfl⟩
  have := pubmed_pagination_invariants.2.2.2 api120 121 hpages (by decide)
  exact this

theorem exceptPureEq {ε α : Type} (a : α) : (pure a : Except ε α) = .ok a := rfl

theorem pyIntStrEq (s : String) : pyInt (XVal.str s) = pyIntStr s := rfl

set_option maxHeartbeats 1600000 in
/-- C4: publication-date derivation on a well-formed record.  (1) An
explicit ArticleDate whose day/month/year parse to a valid date is
preferred, whatever the journal issue's PubDate holds; (2) otherwise the
journal issue's month (mapped through the static month-name table) and
year are used with day 1; (3) with only a year, the date defaults to
January 1 of that year; (4) with no year, the record is rejected
(extraction returns None). -/
theorem pubmed_publication_date_rules :
    (∀ (ds ms ys : String) (d m y : Int) (dt : PDate) (pd : List (String × XVal)),
       pyIntStr ys = .ok y → pyIntStr ms = .ok m → pyIntStr ds = .ok d →
       mkDate y m d = .ok dt →
       paperDateOf (getPaper (sampleRecord (some (ds, ms, ys)) pd none) none) = some dt) ∧
    (∀ (ms ys : String) (m y : Int) (dt : PDate),
       pyInt (getNumericMonthByString (xstr ms)) = .ok m →
       pyIntStr ys = .ok y → mkDate y m 1 = .ok dt →
       paperDateOf (getPaper (sampleRecord none [("Month", xstr ms), ("Year", xstr ys)] none)
         none) = some dt) ∧
    (∀ (ys : String) (y : Int) (dt : PDate),
       pyIntStr ys = .ok y → mkDate y 1 1 = .ok dt →
       paperDateOf (getPaper (sampleRecord none [("Year", xstr ys)] none) none) = some dt) ∧
    (∀ ms : String,
       getPaper (sampleRecord none [("Month", xstr ms)] none) none = .ok none) := by
  refine ⟨?_, ?_, ?_, ?_⟩
  · intro ds ms ys d m y dt pd hy hm hd hdt
    simp [getPaper, sampleRecord, xobj, xstr, xlist, XFields.ofList, XItems.ofList,
      pyGet, pyGetOr, pyContainsKey, pyIter, pyInt, XFields.lookup, XFields.keys,
      XItems.toList, getNumericMonthByString, getTextRecursively, findDoi, collectAuthors,
      hy, hm, hd, hdt, paperDateOf, pyIsDigit, except_bind_ok, except_bind_error, exceptPureEq]
    rfl
  · intro ms ys m y dt hm hy hdt
    simp only [xstr] at hm
    simp [getPaper, sampleRecord, xobj, xstr, xlist, XFields.ofList, XItems.ofList,
      pyGet, pyGetOr, pyContainsKey, pyIter, XFields.lookup, XFields.keys,
      XItems.toList, getTextRecursively, findDoi, collectAuthors, pyIntStrEq,
      (show pyIntStr "1" = Except.ok 1 from rfl),
      hy, hm, hdt, paperDateOf, pyIsDigit, except_bind_ok, except_bind_error, exceptPureEq]
    rfl
  · intro ys y dt hy hdt
    simp [getPaper, sampleRecord, xobj, xstr, xlist, XFields.ofList, XItems.ofList,
      pyGet, pyGetOr, pyContainsKey, pyIter, pyInt, XFields.lookup, XFields.keys,
      XItems.toList, getNumericMonthByString, getTextRecursively, findDoi, collectAuthors,
      hy, hdt, paperDateOf, pyIsDigit, except_bind_ok, except_bind_error, exceptPureEq]
    rfl
  · intro ms
    simp [getPaper, sampleRecord, xobj, xstr, xlist, XFields.ofList, XItems.ofList,
      pyGet, pyGetOr, pyContainsKey, pyIter, pyInt, XFields.lookup, XFields.keys,
      XItems.toList, getTextRecursively, findDoi, collectAuthors,
      paperDateOf, pyIsDigit, except_bind_ok, except_bind_error, exceptPureEq]

/-- C4 (witness): the spec scenario — ArticleDate absent, PubDate month
"Mar" and year "2019" resolve to 2019-03-01. -/
theorem pubmed_publication_date_rules_witness :
    paperDateOf (getPaper (sampleRecord none [("Month", xstr "Mar"), ("Year", xstr "2019")] none)
      none) = some ⟨2019, 3, 1⟩ :=
  pubmed_publication_date_rules.2.1 "Mar" "2019" 3 2019 ⟨2019, 3, 1⟩ rfl rfl rfl

/-- A well-formed record whose ArticleIdList.ArticleId is the given
value. -/
def idsRecord (articleId : XVal) : XVal :=
  xobj [
    ("MedlineCitation", xobj [
      ("Article", xobj [
        ("ArticleTitle", xstr "T"),
        ("Journal", xobj []),
        ("ArticleDate", xobj [("Day", xstr "1"), ("Month", xstr "2"), ("Year", xstr "2020")]),
        ("Abstract", xobj [("AbstractText", xstr "A")]),
        ("AuthorList", xobj [("Author", xobj [("ForeName", xstr "A"), ("LastName", xstr "B")])])])]),
    ("PubmedData", xobj [("ArticleIdList", xobj [("ArticleId", articleId)])])]

/-- A well-formed record whose AuthorList.Author is the given value. -/
def authorsRecord (author : XVal) : XVal :=
  xobj [
    ("MedlineCitation", xobj [
      ("Article", xobj [
        ("ArticleTitle", xstr "T"),
        ("Journal", xobj []),
        ("ArticleDate", xobj [("Day", xstr "1"), ("Month", xstr "2"), ("Year", xstr "2020")]),
        ("Abstract", xobj [("AbstractText", xstr "A")]),
        ("AuthorList", xobj [("Author", author)])])]),
    ("PubmedData", xobj [("ArticleIdList", xobj [("ArticleId", xlist [])])])]

/-- A well-formed record whose Abstract.AbstractText is the given value. -/
def abstractRecord (absText : XVal) : XVal :=
  xobj [
    ("MedlineCitation", xobj [
      ("Article", xobj [
        ("ArticleTitle", xstr "T"),
        ("Journal", xobj []),
        ("ArticleDate", xobj [("Day", xstr "1"), ("Month", xstr "2"), ("Year", xstr "2020")]),
        ("Abstract", xobj [("AbstractText", absText)]),
        ("AuthorList", xobj [("Author", xobj [("ForeName", xstr "A"), ("LastName", xstr "B")])])])]),
    ("PubmedData", xobj [("ArticleIdList", xobj [("ArticleId", xlist [])])])]

/-- The single DOI identifier used in the single-vs-sequence theorems. -/
def doiIdEntry : XVal := xobj [("@IdType", xstr "doi"), ("#text", xstr "10.1/x")]

/-- C5 (counterexample): when ArticleIdList.ArticleId arrives as a single
identifier object tagged as DOI, the scan iterates the dictionary's keys
and finds no DOI (None), while the same identifier wrapped in a sequence
yields the DOI — so extraction does NOT normalize this field to a
sequence. -/
theorem pubmed_doi_single_counterexample :
    paperDoiOf (getPaper (idsRecord doiIdEntry) none) = some none ∧
    paperDoiOf (getPaper (idsRecord (xlist [doiIdEntry])) none) = some (some "10.1/x") :=
  ⟨rfl, rfl⟩

/-- C5 (amended): AbstractText and the author structure are normalized
across the single-object and sequence forms (a single author dict yields
the same one-element author list as a one-element sequence, a single
abstract string the same text as a one-element sequence); the DOI scan
finds the first DOI-tagged entry only when ArticleId is a sequence — a
single identifier object is iterated key-wise and yields None. -/
theorem pubmed_single_vs_sequence :
    (paperAuthorsOf (getPaper (authorsRecord (xobj [("ForeName", xstr "A"),
        ("LastName", xstr "B")])) none) = some ["A B"] ∧
     paperAuthorsOf (getPaper (authorsRecord (xlist [xobj [("ForeName", xstr "A"),
        ("LastName", xstr "B")]])) none) = some ["A B"]) ∧
    (paperAbstractOf (getPaper (abstractRecord (xstr "A")) none) = some "A" ∧
     paperAbstractOf (getPaper (abstractRecord (xlist [xstr "A"])) none) = some "A") ∧
    (paperDoiOf (getPaper (idsRecord (xlist [doiIdEntry, xobj [("@IdType", xstr "pubmed"),
        ("#text", xstr "99")]])) none) = some (some "10.1/x") ∧
     paperDoiOf (getPaper (idsRecord doiIdEntry) none) = some none) :=
  ⟨⟨rfl, rfl⟩, ⟨rfl, rfl⟩, ⟨rfl, rfl⟩⟩

/-- A record whose journal has a non-empty title but no ISSN section. -/
def noIssnRecord : XVal :=
  xobj [("MedlineCitation", xobj [("Article", xobj [("Journal", xobj [("Title", xstr "J")])])])]

/-- A record whose journal title is present but empty. -/
def emptyTitleRecord : XVal :=
  xobj [("MedlineCitation", xobj [("Article", xobj [("Journal", xobj [("Title", xstr "")])])])]

/-- A well-formed record whose MedlineCitation has a KeywordList section
that is structurally anomalous (an empty XML element parsed as None). -/
def kwAnomalyRecord : XVal :=
  xobj [
    ("MedlineCitation", xobj [
      ("Article", xobj [
        ("ArticleTitle", xstr "T"),
        ("Journal", xobj []),
        ("ArticleDate", xobj [("Day", xstr "1"), ("Month", xstr "2"), ("Year", xstr "2020")]),
        ("Abstract", xobj [("AbstractText", xstr "A")]),
        ("AuthorList", xobj [("Author", xobj [("ForeName", xstr "A"), ("LastName", xstr "B")])])]),
      ("KeywordList", XVal.null)]),
    ("PubmedData", xobj [("ArticleIdList", xobj [("ArticleId", xlist [])])])]

/-- C6 (counterexample): a record whose journal has a non-empty title but
no ISSN section makes `_get_publication` raise AttributeError
(`None.get("#text")`), so the absence of the optional ISSN section DOES
fault extraction. -/
theorem pubmed_missing_issn_faults_counterexample :
    getPublication noIssnRecord = .error .attrError := rfl

/-- C6 (amended): a missing or empty venue title yields a None
publication without a fault, a missing keyword list or an anomalous one
yields the empty keyword set, and a missing page range leaves pages and
number_of_pages unset — but a present journal title with a missing ISSN
section raises AttributeError and faults the record. -/
theorem pubmed_optional_sections :
    getPublication cheapRec = .ok none ∧
    getPublication emptyTitleRecord = .ok none ∧
    paperKeywordsOf (getPaper (sampleRecord (some ("1", "2", "2020")) [] none) none) = some [] ∧
    paperKeywordsOf (getPaper kwAnomalyRecord none) = some [] ∧
    paperPagesOf (getPaper (sampleRecord (some ("1", "2", "2020")) [] none) none) =
      some (none, none) ∧
    getPublication noIssnRecord = .error .attrError :=
  ⟨rfl, rfl, rfl, rfl, rfl, rfl⟩

/-- C7: when the iteration reaches a candidate whose HEAD response has an
application/pdf content-type, `find_pdf_url` returns that response's
resolved URL exactly, without consulting the remaining candidates; and a
candidate that yields nothing is skipped in favour of the rest. -/
theorem find_pdf_url_pdf_content_type :
    (∀ (fetch : String → Option HeadResponse) (doi : Option String) (u : String)
       (rest : List String) (r : HeadResponse) (ct : String),
       fetch u = some r → r.contentType = some ct →
       strContainsSub "text/html" (pyToLower ct) = false →
       strContainsSub "application/pdf" (pyToLower ct) = true →
       find_pdf_url fetch doi (u :: rest) = some r.url) ∧
    (∀ (fetch : String → Option HeadResponse) (doi : Option String) (u : String)
       (rest : List String),
       tryCandidate fetch doi u = none →
       find_pdf_url fetch doi (u :: rest) = find_pdf_url fetch doi rest) := by
  constructor
  · intro fetch doi u rest r ct hf hct hhtml hpdf
    have ht : tryCandidate fetch doi u = some r.url := by
      rw [tryCandidate, hf]
      simp [ctContains, hct, hhtml, hpdf, except_bind_ok, except_bind_error, exceptPureEq]
    rw [find_pdf_url]
    simp only [ht]
  · intro fetch doi u rest h
    rw [find_pdf_url]
    simp only [h]

/-- A fetch returning a PDF HEAD response for every URL. -/
def pdfFetchW : String → Option HeadResponse :=
  fun _ => some ⟨"https://x.org/f.pdf", some "application/pdf"⟩

/-- C7 (witness): a fabricated HEAD response with content-type
application/pdf resolves to its own URL. -/
theorem find_pdf_url_pdf_content_type_witness :
    find_pdf_url pdfFetchW none ["u", "v"] = some "https://x.org/f.pdf" :=
  find_pdf_url_pdf_content_type.1 pdfFetchW none "u" ["v"]
    ⟨"https://x.org/f.pdf", some "application/pdf"⟩ "application/pdf" rfl rfl
    (by decide) (by decide)

/-- The resolved hosts appearing in the per-domain rule table of
`find_pdf_url`. -/
def ruleHosts : List String :=
  ["https://dl.acm.org", "https://ieeexplore.ieee.org", "https://www.sciencedirect.com",
   "https://linkinghub.elsevier.com", "https://pubs.rsc.org", "https://www.tandfonline.com",
   "https://www.frontiersin.org", "https://pubs.acs.org", "https://journals.sagepub.com",
   "https://royalsocietypublishing.org", "https://link.springer.com",
   "https://www.isca-speech.org", "https://onlinelibrary.wiley.com", "https://www.jmir.org",
   "https://www.mdpi.com", "https://www.pnas.org", "https://www.jneurosci.org",
   "https://www.ijcai.org", "https://asmp-eurasipjournals.springeropen.com"]

/-- C8: an HTML landing response resolved to host www.tandfonline.com
derives its PDF URL by replacing "/full" with "/pdf" in the resolved URL;
an HTML response whose resolved host matches no rule in the table yields
no PDF URL for that candidate; and when every candidate yields nothing,
`find_pdf_url` returns None. -/
theorem find_pdf_url_domain_rules :
    (∀ (fetch : String → Option HeadResponse) (doi : Option String) (u : String)
       (rest : List String) (r : HeadResponse) (ct : String),
       fetch u = some r → r.contentType = some ct →
       strContainsSub "text/html" (pyToLower ct) = true →
       (pyUrlsplit r.url).scheme = "https" →
       (pyUrlsplit r.url).hostname = "www.tandfonline.com" →
       find_pdf_url fetch doi (u :: rest) = some (pyReplace r.url "/full" "/pdf")) ∧
    (∀ (fetch : String → Option HeadResponse) (doi : Option String) (u : String)
       (r : HeadResponse) (ct : String),
       fetch u = some r → r.contentType = some ct →
       strContainsSub "text/html" (pyToLower ct) = true →
       ((pyUrlsplit r.url).scheme ++ "://" ++ (pyUrlsplit r.url).hostname) ∉ ruleHosts →
       tryCandidate fetch doi u = none) ∧
    (∀ (fetch : String → Option HeadResponse) (doi : Option String) (urls : List String),
       (∀ u ∈ urls, tryCandidate fetch doi u = none) →
       find_pdf_url fetch doi urls = none) := by
  refine ⟨?_, ?_, ?_⟩
  · intro fetch doi u rest r ct hf hct hhtml hs hh
    have ht : tryCandidate fetch doi u = some (pyReplace r.url "/full" "/pdf") := by
      rw [tryCandidate, hf]
      simp [ctContains, hct, hhtml, except_bind_ok, except_bind_error, exceptPureEq,
        htmlRules, hs, hh]
    rw [find_pdf_url]
    simp only [ht]
  · intro fetch doi u r ct hf hct hhtml hmem
    simp only [ruleHosts, List.mem_cons, List.not_mem_nil, or_false, not_or] at hmem
    obtain ⟨h1, h2, h3, h4, h5, h6, h7, h8, h9, h10, h11, h12, h13, h14, h15, h16, h17,
      h18, h19⟩ := hmem
    rw [tryCandidate, hf]
    simp [ctContains, hct, hhtml, except_bind_ok, except_bind_error, exceptPureEq,
      htmlRules, h1, h2, h3, h4, h5, h6, h7, h8, h9, h10, h11, h12, h13, h14, h15, h16,
      h17, h18, h19]
  · intro fetch doi urls hall
    induction urls with
    | nil => rfl
    | cons u rest ih =>
      rw [find_pdf_url]
      simp only [hall u (List.mem_cons_self u rest)]
      exact ih (fun v hv => hall v (List.mem_cons_of_mem u hv))

/-- A fetch resolving every URL to the Taylor and Francis landing page. -/
def tandfFetchW : String → Option HeadResponse :=
  fun _ => some ⟨"https://www.tandfonline.com/doi/full", some "text/html"⟩

/-- C8 (witness): the landing URL with path ending in /full derives the
PDF URL with /full replaced by /pdf. -/
theorem find_pdf_url_domain_rules_witness :
    find_pdf_url tandfFetchW none ["u"] = some "https://www.tandfonline.com/doi/pdf" :=
  find_pdf_url_domain_rules.1 tandfFetchW none "u" []
    ⟨"https://www.tandfonline.com/doi/full", some "text/html"⟩ "text/html" rfl rfl
    (by decide) rfl rfl

/-- C9: the raw page-range text is preserved as-is; a single number is
not treated as a range (number_of_pages stays None, shown for every
digit string); "123-145" yields 23 pages; a non-numeric range such as
"e17-e25" keeps the raw text and leaves number_of_pages unset; and a
missing Pagination section leaves both unset. -/
theorem pubmed_pages_rules :
    paperPagesOf (getPaper (sampleRecord none [("Year", xstr "2019")]
      (some (xstr "123-145"))) none) = some (some "123-145", some 23) ∧
    paperPagesOf (getPaper (sampleRecord none [("Year", xstr "2019")]
      (some (xstr "7"))) none) = some (some "7", none) ∧
    paperPagesOf (getPaper (sampleRecord none [("Year", xstr "2019")]
      (some (xstr "e17-e25"))) none) = some (some "e17-e25", none) ∧
    paperPagesOf (getPaper (sampleRecord none [("Year", xstr "2019")] none) none) =
      some (none, none) ∧
    (∀ s : String, pyIsDigit s = true →
      paperPagesOf (getPaper (sampleRecord none [("Year", xstr "2019")]
        (some (xstr s))) none) = some (some s, none)) := by
  refine ⟨rfl, rfl, rfl, rfl, ?_⟩
  intro s hs
  simp [getPaper, sampleRecord, xobj, xstr, xlist, XFields.ofList, XItems.ofList,
    pyGet, pyGetOr, pyContainsKey, pyIter, pyInt, XFields.lookup, XFields.keys,
    XItems.toList, getNumericMonthByString, getTextRecursively, findDoi, collectAuthors,
    hs, paperPagesOf, except_bind_ok, except_bind_error, exceptPureEq]
  rfl

/-- C9 (witness): the single-number conjunct at the digit string "42". -/
theorem pubmed_pages_rules_witness :
    paperPagesOf (getPaper (sampleRecord none [("Year", xstr "2019")]
      (some (xstr "42"))) none) = some (some "42", none) :=
  pubmed_pages_rules.2.2.2.2 "42" (by decide)

/-- C10: when the output file does not exist, a pdf_url resolves, and the
GET response's content-type is not application/pdf, `download_paper`
writes nothing yet returns the non-None output filepath, which the
`download` loop records as a successful download; and `download_paper`
returns None exactly when neither the stored pdf_url nor the resolver
produces a URL. -/
theorem download_paper_nonpdf_content :
    (∀ (purl rurl : Option String) (u ct path : String),
       (match purl with | some x => some x | none => rurl) = some u →
       strContainsSub "application/pdf" (pyToLower ct) = false →
       download_paper false purl rurl (some ⟨some ct⟩) path = .ok (false, some path) ∧
       downloadMarked (some path) = true) ∧
    (∀ (purl rurl : Option String) (g : Option GetResponse) (path : String) (w : Bool),
       download_paper false purl rurl g path = .ok (w, none) → purl = none ∧ rurl = none) := by
  constructor
  · intro purl rurl u ct path hres hct
    refine ⟨?_, rfl⟩
    rw [download_paper.eq_def]
    simp only [Bool.false_eq_true, if_false, hres, hct]
  · intro purl rurl g path w h
    rw [download_paper.eq_def] at h
    cases purl with
    | some u =>
      cases g with
      | none => simp at h
      | some rr =>
        cases hrr : rr.contentType with
        | none => simp [hrr] at h
        | some ct =>
          by_cases hc : strContainsSub "application/pdf" (pyToLower ct) = true
          all_goals simp [hrr, hc] at h
    | none =>
      cases rurl with
      | some u =>
        cases g with
        | none => simp at h
        | some rr =>
          cases hrr : rr.contentType with
          | none => simp [hrr] at h
          | some ct =>
            by_cases hc : strContainsSub "application/pdf" (pyToLower ct) = true
            all_goals simp [hrr, hc] at h
      | none => exact ⟨rfl, rfl⟩

/-- C10 (witness): a resolved pdf_url whose GET response is text/html:
no write, non-None filepath, recorded as downloaded. -/
theorem download_paper_nonpdf_content_witness :
    download_paper false (some "https://x.org/a") none (some ⟨some "text/html"⟩)
      "out/2020-T.pdf" = .ok (false, some "out/2020-T.pdf") ∧
    downloadMarked (some "out/2020-T.pdf") = true :=
  download_paper_nonpdf_content.1 (some "https://x.org/a") none "https://x.org/a"
    "text/html" "out/2020-T.pdf" rfl (by decide)
